import Mathlib

/-!
Verification of the casanova CSV toolkit (Python) against its specification.

We shallowly embed the relevant source files:
  * `src/casanova/utils.py` (null-byte helpers, BOM suppression, the
    Python-3.10 `csv.Error` wrapper),
  * `src/casanova/writer.py` (the `Writer` class),
  * `src/casanova/namedrecord.py` (`Record.__getitem__` / `Record.get`,
    `coerce_row`).

Python strings are modelled as `List Char` (a Python `str` is a sequence of
code points); a CSV row is a list of cells.  The side effect of `Writer` on its
output sink is modelled as the ordered list of rows physically written.
-/

namespace Casanova

/-- A Python string: its sequence of code points. -/
abbrev Cell := List Char

/-- A CSV row: an ordered sequence of string cells. -/
abbrev Row := List Cell

/-- The null byte character (Python `"\0"`). -/
def nullByte : Char := Char.ofNat 0

/-- From `utils.py`: `def has_null_byte(string): return "\0" in string`. -/
def has_null_byte (s : Cell) : Bool :=
  s.contains nullByte

/-- From `utils.py`: `def strip_null_bytes(string): return string.replace("\0", "")`.
Replacing every occurrence of the one-character pattern `"\0"` by the empty
string removes exactly the null-byte characters. -/
def strip_null_bytes (s : Cell) : Cell :=
  s.filter (fun c => c ≠ nullByte)

/-- From `utils.py`:
```
def strip_null_bytes_from_row(row):
    if any(has_null_byte(cell) for cell in row):
        return [strip_null_bytes(cell) for cell in row]
    return row
```
-/
def strip_null_bytes_from_row (row : Row) : Row :=
  if row.any (fun cell => has_null_byte cell) then
    row.map (fun cell => strip_null_bytes cell)
  else
    row

/-- The byte-order mark U+FEFF. -/
def bomChar : Char := Char.ofNat 0xFEFF

/-- From `utils.py`: `BOM_RE = re.compile` of the regex caret followed by U+FEFF and
`def suppress_BOM(string): return re.sub(BOM_RE, "", string)`.
Without `re.MULTILINE` the anchor `^` matches only at position 0, so the
substitution removes at most one byte-order mark, at the very start. -/
def suppress_BOM (s : List Char) : List Char :=
  match s with
  | [] => []
  | c :: rest => if c = bomChar then rest else c :: rest

/-- The `csv.Error` exception raised by the underlying `csv.writer.writerow`,
carrying its message (`str(e)`). -/
inductive CsvError
  | mk (msg : List Char)
  deriving DecidableEq, Repr

/-- The message of a `CsvError`. -/
def CsvError.msg : CsvError → List Char
  | .mk m => m

/-- Errors observable from the wrapped `writerow`: either a propagated
`csv.Error` or the casanova `Py310NullByteWriteError` (from `exceptions.py`). -/
inductive WriteError
  | csv (e : CsvError)
  | py310NullByteWrite (msg : List Char)
  deriving DecidableEq, Repr

/-- The Python `str.lower()` method applied to a message (the messages compared here are
plain ASCII). -/
def str_lower (s : List Char) : List Char :=
  s.map Char.toLower

/-- The `csv.Error` message recognised by the wrapper, from `utils.py` line 26. -/
def needToEscapeMsg : List Char :=
  "need to escape, but no escapechar set".data

/-- The message of the raised `Py310NullByteWriteError`, from `utils.py`. -/
def py310ErrorMsg : List Char :=
  "Cannot write row containing null byte. This error only happens on python 3.10 (see https://github.com/python/cpython/issues/56387). Consider using the strip_null_bytes_on_write=True kwarg or change python version.".data

/-- From `utils.py`:
```
def py310_wrap_csv_writerow(writer):
    if not PY_310:
        return writer.writerow

    def wrapped(*args, **kwargs):
        try:
            writer.writerow(*args, **kwargs)
        except csv.Error as e:
            if str(e).lower() == "need to escape, but no escapechar set":
                raise Py310NullByteWriteError(...)
            raise

    return wrapped
```
The underlying `writer.writerow` is modelled as a function that either
succeeds or raises a `csv.Error`; `PY_310` (whether
`python_version_tuple()[:2] == ("3", "10")`) is an explicit parameter. -/
def py310_wrap_csv_writerow (py310 : Bool)
    (writerow : Row → Except CsvError Unit) : Row → Except WriteError Unit :=
  if !py310 then
    fun row => (writerow row).mapError WriteError.csv
  else
    fun row =>
      match writerow row with
      | .ok u => .ok u
      | .error e =>
        if str_lower e.msg = needToEscapeMsg then
          .error (.py310NullByteWrite py310ErrorMsg)
        else
          .error (.csv e)

/-! ### The `Writer` (`src/casanova/writer.py`)

The output sink of the writer is modelled by the ordered list of rows it has
physically written (`emitted`).  A `Resumer` (the `casanova.resuming` module is
not part of the sources at hand) is modelled through the contract the writer
uses: its concrete strategy class and the result of its `can_resume()` call;
`get_insights_from_output` calls are counted in the writer state. -/

/-- Modelled from the spec: the concrete `Resumer` strategies of the resuming
module (row-count, last-cell comparison, indexed, batch, plus the basic
resumer exercised by the test-suite); the module itself is absent from the
sources, only its contract is used by `writer.py`. -/
inductive ResumerKind
  | basic
  | rowCount
  | lastCell
  | indexed
  | batch
  deriving DecidableEq, Repr

/-- The Python class name of each concrete resumer strategy. -/
def ResumerKind.className : ResumerKind → List Char
  | .basic => "BasicResumer".data
  | .rowCount => "RowCountResumer".data
  | .lastCell => "LastCellResumer".data
  | .indexed => "IndexedResumer".data
  | .batch => "BatchResumer".data

/-- A `Resumer` as seen by the writer: its concrete strategy and what its
`can_resume()` method returns. -/
structure Resumer where
  kind : ResumerKind
  canResume : Bool
  deriving DecidableEq, Repr

/-- The `output_file` argument of `Writer.__init__`: a plain output stream or
a `Resumer`. -/
inductive WriterOutput
  | stream
  | resumer (r : Resumer)
  deriving DecidableEq, Repr

/-- From writer.py line 17: `Writer.__supported_resumers__ = (LastCellResumer,)`. -/
def supported_resumers : List ResumerKind := [ResumerKind.lastCell]

/-- The observable state of a `Writer`: its fieldnames, the resolved
`strip_null_bytes_on_write` flag, the rows physically written to the sink so
far, and how many times `get_insights_from_output` was called on the resumer. -/
structure WriterState where
  fieldnames : Row
  strip_null_bytes_on_write : Bool
  emitted : List Row
  insightsCalls : Nat
  deriving DecidableEq, Repr

/-- Errors raised by `Writer.__init__`: the `TypeError` of writer.py lines
37-40, `"%s: does not support %s!" % (writer class name, resumer class name)`. -/
inductive InitError
  | unsupportedResumer (writerClass resumerClass : List Char)
  deriving DecidableEq, Repr

/-- From writer.py lines 55-61, `Writer.writeheader`:
```
def writeheader(self):
    row = self.fieldnames
    if self.strip_null_bytes_on_write:
        row = strip_null_bytes_from_row(row)
    self._writerow(row)
```
-/
def Writer_writeheader (w : WriterState) : WriterState :=
  let row := w.fieldnames
  let row := if w.strip_null_bytes_on_write then strip_null_bytes_from_row row else row
  { w with emitted := w.emitted ++ [row] }

/-- From writer.py lines 63-66, `Writer.writerow`:
```
def writerow(self, row):
    self._writerow(
        strip_null_bytes_from_row(row) if self.strip_null_bytes_on_write else row
    )
```
It takes exactly one row argument and performs one physical write. -/
def Writer_writerow (w : WriterState) (row : Row) : WriterState :=
  { w with
    emitted :=
      w.emitted ++
        [if w.strip_null_bytes_on_write then strip_null_bytes_from_row row else row] }

/-- From writer.py lines 19-53, `Writer.__init__`.  `strip?` is the
`strip_null_bytes_on_write` kwarg (`None` falls back to
`DEFAULTS["strip_null_bytes_on_write"]`, passed here as `defaultStrip` since
the defaults module is not among the sources).  A non-`Resumer` output skips
the resumer branch; a `Resumer` outside `__supported_resumers__` raises the
`TypeError` before anything is written; otherwise `can_resume()` decides
whether `get_insights_from_output(self)` is called and the header emission
(`if not can_resume: self.writeheader()`) is skipped. -/
def Writer_init (output : WriterOutput) (fieldnames : Row)
    (strip? : Option Bool) (defaultStrip : Bool) : Except InitError WriterState :=
  let strip := strip?.getD defaultStrip
  let base : WriterState :=
    { fieldnames := fieldnames
      strip_null_bytes_on_write := strip
      emitted := []
      insightsCalls := 0 }
  match output with
  | .stream => .ok (Writer_writeheader base)
  | .resumer r =>
    if r.kind ∈ supported_resumers then
      let canResume := r.canResume
      let s := { base with insightsCalls := if canResume then 1 else 0 }
      .ok (if canResume then s else Writer_writeheader s)
    else
      .error (.unsupportedResumer "Writer".data r.kind.className)

/-! ### Named records (`src/casanova/namedrecord.py`)

`namedrecord(name, fields, ...)` builds a `namedtuple` subclass; the
dictionary `mapping = {k: i for i, k in enumerate(fields)}` maps a field name
to its position (`namedtuple` rejects duplicate field names, so positions are
unique).  An instance is the tuple of its field values; we model it as the
field-name list together with the value list of the same length. -/

/-- The exceptions `Record.get` catches (namedrecord.py line 70):
`IndexError` from tuple indexing, `KeyError` from an unknown string key. -/
inductive GetError
  | keyError
  | indexError
  deriving DecidableEq, Repr

/-- A key passed to `Record.__getitem__` / `Record.get`: a field-name string
or an integer index (Python integers may be negative). -/
inductive RecordKey
  | name (s : List Char)
  | index (i : Int)
  deriving DecidableEq, Repr

/-- From namedrecord.py: `mapping.get(key)`, the position of a field name (namedrecord.py line 35;
positions are unique because `namedtuple` rejects duplicate field names). -/
def Record_mapping_get (fields : List (List Char)) (key : List Char) : Option Nat :=
  fields.findIdx? (fun k => k = key)

/-- Python tuple indexing `t[i]` on a tuple of length `n`: indices
`0 ≤ i < n` count from the front, `-n ≤ i < 0` from the back, anything else
raises `IndexError`. -/
def tuple_getitem {α : Type} (vals : List α) (i : Int) : Except GetError α :=
  if 0 ≤ i ∧ i < (vals.length : Int) then
    match vals.get? i.toNat with
    | some v => .ok v
    | none => .error .indexError
  else if -(vals.length : Int) ≤ i ∧ i < 0 then
    match vals.get? ((vals.length : Int) + i).toNat with
    | some v => .ok v
    | none => .error .indexError
  else
    .error .indexError

/-- From namedrecord.py lines 56-65, `Record.__getitem__`:
```
def __getitem__(self, key):
    if isinstance(key, str):
        idx = mapping.get(key)
        if idx is None:
            raise KeyError
        return super().__getitem__(idx)
    return super().__getitem__(key)
```
-/
def Record_getitem {α : Type} (fields : List (List Char)) (vals : List α)
    (key : RecordKey) : Except GetError α :=
  match key with
  | .name s =>
    match Record_mapping_get fields s with
    | none => .error .keyError
    | some idx => tuple_getitem vals (idx : Nat)
  | .index i => tuple_getitem vals i

/-- From namedrecord.py lines 67-71, `Record.get`:
```
def get(self, key, default=None):
    try:
        return self.__getitem__(key)
    except (IndexError, KeyError):
        return default
```
-/
def Record_get {α : Type} (fields : List (List Char)) (vals : List α)
    (key : RecordKey) (default : α) : α :=
  match Record_getitem fields vals key with
  | .ok v => v
  | .error _ => default

/-- The argument of `coerce_row` (namedrecord.py lines 208-214): either a
plain sequence of cells, or a record-like object whose callable `as_csv_row`
renders it to its serialized cell sequence. -/
inductive RowLike
  | plain (row : Row)
  | record (csvRow : Row)
  deriving DecidableEq, Repr

/-- From namedrecord.py lines 208-214, `coerce_row`:
```
def coerce_row(row, consume=False):
    as_csv_row = getattr(row, "as_csv_row", None)
    if callable(as_csv_row):
        row = as_csv_row()
    return list(row) if consume else row
```
(the `consume` copy is invisible to a value model). -/
def coerce_row (row : RowLike) : Row :=
  match row with
  | .plain r => r
  | .record csvRow => csvRow

/-! ### General lemmas about the null-byte helpers -/

theorem has_null_byte_eq_false_iff (s : Cell) :
    has_null_byte s = false ↔ nullByte ∉ s := by
  unfold has_null_byte
  rw [Bool.eq_false_iff]
  exact not_congr List.elem_iff

theorem nullByte_not_mem_strip_null_bytes (s : Cell) :
    nullByte ∉ strip_null_bytes s := by
  simp [strip_null_bytes]

theorem has_null_byte_strip_null_bytes (s : Cell) :
    has_null_byte (strip_null_bytes s) = false :=
  (has_null_byte_eq_false_iff _).2 (nullByte_not_mem_strip_null_bytes s)

theorem strip_null_bytes_of_clean (s : Cell) (h : has_null_byte s = false) :
    strip_null_bytes s = s := by
  have hmem : nullByte ∉ s := (has_null_byte_eq_false_iff s).1 h
  unfold strip_null_bytes
  rw [List.filter_eq_self]
  intro a ha
  simp only [ne_eq, decide_eq_true_eq]
  intro hc
  exact hmem (hc ▸ ha)

theorem strip_null_bytes_from_row_eq_map (row : Row) :
    strip_null_bytes_from_row row = row.map strip_null_bytes := by
  unfold strip_null_bytes_from_row
  by_cases h : row.any (fun cell => has_null_byte cell) = true
  · rw [if_pos h]
  · rw [if_neg h]
    rw [Bool.not_eq_true, List.any_eq_false] at h
    have : ∀ cell ∈ row, strip_null_bytes cell = cell := by
      intro cell hc
      exact strip_null_bytes_of_clean cell (by simpa using h cell hc)
    calc row = row.map id := (List.map_id row).symm
      _ = row.map strip_null_bytes := List.map_congr_left (fun a ha => (this a ha).symm)

/-! ### Claim theorems -/

/-- C8: for every string `s`, `suppress_BOM` removes a single leading U+FEFF
byte-order mark if present and otherwise returns `s` unchanged; a U+FEFF
occurring anywhere other than position 0 is preserved (the result is the
unmodified tail, respectively the unmodified string). -/
theorem C8_suppress_BOM_leading_only (s : List Char) :
    suppress_BOM (bomChar :: s) = s ∧
    (s.head? ≠ some bomChar → suppress_BOM s = s) := by
  constructor
  · simp [suppress_BOM]
  · intro h
    match s with
    | [] => rfl
    | c :: rest =>
      simp only [List.head?_cons, ne_eq, Option.some.injEq] at h
      simp [suppress_BOM, h]

/-- Witness for C8 at concrete inputs: a leading BOM is removed, and a string
whose BOM sits at position 1 is returned unchanged. -/
theorem C8_suppress_BOM_leading_only_witness :
    suppress_BOM (bomChar :: "ab".data) = "ab".data ∧
    (("a﻿b".data).head? ≠ some bomChar ∧
      suppress_BOM ("a﻿b".data) = "a﻿b".data) :=
  ⟨(C8_suppress_BOM_leading_only "ab".data).1,
   by decide,
   (C8_suppress_BOM_leading_only ("a﻿b".data)).2 (by decide)⟩

/-- C9: `strip_null_bytes_from_row` is idempotent, no cell of its result
contains a null byte, and a row in which no cell contains a null byte is
returned unchanged (the source returns the very row object it was given). -/
theorem C9_strip_null_bytes_from_row_algebra (row : Row) :
    strip_null_bytes_from_row (strip_null_bytes_from_row row) =
      strip_null_bytes_from_row row ∧
    (∀ cell ∈ strip_null_bytes_from_row row, has_null_byte cell = false) ∧
    (row.any (fun cell => has_null_byte cell) = false →
      strip_null_bytes_from_row row = row) := by
  have hclean : ∀ cell ∈ strip_null_bytes_from_row row, has_null_byte cell = false := by
    rw [strip_null_bytes_from_row_eq_map]
    intro cell hc
    rcases List.mem_map.1 hc with ⟨a, _, rfl⟩
    exact has_null_byte_strip_null_bytes a
  refine ⟨?_, hclean, ?_⟩
  · unfold strip_null_bytes_from_row
    rw [if_neg]
    rw [Bool.not_eq_true, List.any_eq_false]
    intro cell hc
    simp [hclean cell hc]
  · intro h
    unfold strip_null_bytes_from_row
    rw [if_neg (by simp [h])]

/-- Witness for C9 at concrete inputs: idempotence and null-freeness on a row
holding a null byte, and identity on a clean row. -/
theorem C9_strip_null_bytes_from_row_algebra_witness :
    strip_null_bytes_from_row (strip_null_bytes_from_row ["a\x00".data, "b".data]) =
      strip_null_bytes_from_row ["a\x00".data, "b".data] ∧
    ("a".data ∈ strip_null_bytes_from_row ["a\x00".data, "b".data] ∧
      has_null_byte "a".data = false) ∧
    (["b".data].any (fun cell => has_null_byte cell) = false ∧
      strip_null_bytes_from_row ["b".data] = ["b".data]) :=
  ⟨(C9_strip_null_bytes_from_row_algebra ["a\x00".data, "b".data]).1,
   ⟨by decide,
    (C9_strip_null_bytes_from_row_algebra ["a\x00".data, "b".data]).2.1
      "a".data (by decide)⟩,
   ⟨by decide,
    (C9_strip_null_bytes_from_row_algebra ["b".data]).2.2 (by decide)⟩⟩

/-- C3: on a writer whose `strip_null_bytes_on_write` flag is true, the header
row and every data row are emitted with every cell equal to the original cell
with all null bytes removed, and consequently no emitted cell contains a null
byte.  (Construction with a plain output emits the header through
`Writer_writeheader`, so this covers every emission path of the writer.) -/
theorem C3_strip_null_bytes_on_write (w : WriterState)
    (h : w.strip_null_bytes_on_write = true) :
    ((Writer_writeheader w).emitted =
        w.emitted ++ [w.fieldnames.map strip_null_bytes] ∧
      ∀ row : Row, (Writer_writerow w row).emitted =
        w.emitted ++ [row.map strip_null_bytes]) ∧
    ∀ row : Row, ∀ cell ∈ row.map strip_null_bytes, has_null_byte cell = false := by
  refine ⟨⟨?_, ?_⟩, ?_⟩
  · unfold Writer_writeheader
    simp [h, strip_null_bytes_from_row_eq_map]
  · intro row
    unfold Writer_writerow
    simp [h, strip_null_bytes_from_row_eq_map]
  · intro row cell hc
    rcases List.mem_map.1 hc with ⟨a, _, rfl⟩
    exact has_null_byte_strip_null_bytes a

/-- Witness for C3 at a concrete writer whose fieldnames and data row contain
null bytes: the emitted header and data rows are the stripped ones. -/
theorem C3_strip_null_bytes_on_write_witness :
    ({ fieldnames := ["a\x00b".data]
       strip_null_bytes_on_write := true
       emitted := []
       insightsCalls := 0 } : WriterState).strip_null_bytes_on_write = true ∧
    (Writer_writeheader
        { fieldnames := ["a\x00b".data]
          strip_null_bytes_on_write := true
          emitted := []
          insightsCalls := 0 }).emitted = [["ab".data]] ∧
    (Writer_writerow
        { fieldnames := ["a\x00b".data]
          strip_null_bytes_on_write := true
          emitted := []
          insightsCalls := 0 } ["x\x00".data, "y".data]).emitted =
      [["x".data, "y".data]] := by
  refine ⟨rfl, ?_, ?_⟩
  · exact ((C3_strip_null_bytes_on_write _ rfl).1.1).trans (by decide)
  · exact ((C3_strip_null_bytes_on_write _ rfl).1.2 _).trans (by decide)

/-- C2: constructing a `Writer` over a supported resumer whose `can_resume()`
is true emits no header row and calls `get_insights_from_output` once; with a
supported resumer whose `can_resume()` is false, or with a plain output
stream, construction emits the header row exactly once (and never calls
`get_insights_from_output`). -/
theorem C2_header_suppression_on_resume (fns : Row) (strip? : Option Bool)
    (ds : Bool) (r : Resumer) (hk : r.kind = ResumerKind.lastCell) :
    (r.canResume = true →
      Writer_init (.resumer r) fns strip? ds =
        .ok { fieldnames := fns
              strip_null_bytes_on_write := strip?.getD ds
              emitted := []
              insightsCalls := 1 }) ∧
    (r.canResume = false →
      Writer_init (.resumer r) fns strip? ds =
        .ok { fieldnames := fns
              strip_null_bytes_on_write := strip?.getD ds
              emitted := [if strip?.getD ds then strip_null_bytes_from_row fns else fns]
              insightsCalls := 0 }) ∧
    Writer_init .stream fns strip? ds =
      .ok { fieldnames := fns
            strip_null_bytes_on_write := strip?.getD ds
            emitted := [if strip?.getD ds then strip_null_bytes_from_row fns else fns]
            insightsCalls := 0 } := by
  refine ⟨?_, ?_, ?_⟩
  · intro hc
    simp [Writer_init, supported_resumers, hk, hc]
  · intro hc
    simp [Writer_init, Writer_writeheader, supported_resumers, hk, hc]
  · simp [Writer_init, Writer_writeheader]

/-- Witness for C2 at concrete inputs: a resuming `LastCellResumer` suppresses
the header and triggers one insights call; a non-resuming one and a plain
stream each emit the header once. -/
theorem C2_header_suppression_on_resume_witness :
    (Resumer.mk ResumerKind.lastCell true).kind = ResumerKind.lastCell ∧
    Writer_init (.resumer (Resumer.mk ResumerKind.lastCell true)) ["a".data]
        none false =
      .ok { fieldnames := ["a".data]
            strip_null_bytes_on_write := false
            emitted := []
            insightsCalls := 1 } ∧
    Writer_init (.resumer (Resumer.mk ResumerKind.lastCell false)) ["a".data]
        none false =
      .ok { fieldnames := ["a".data]
            strip_null_bytes_on_write := false
            emitted := [["a".data]]
            insightsCalls := 0 } ∧
    Writer_init .stream ["a".data] none false =
      .ok { fieldnames := ["a".data]
            strip_null_bytes_on_write := false
            emitted := [["a".data]]
            insightsCalls := 0 } := by
  have h := C2_header_suppression_on_resume ["a".data] none false
    (Resumer.mk ResumerKind.lastCell true) rfl
  have h2 := C2_header_suppression_on_resume ["a".data] none false
    (Resumer.mk ResumerKind.lastCell false) rfl
  exact ⟨rfl, (h.1 rfl).trans rfl, (h2.2.1 rfl).trans rfl, h.2.2.trans rfl⟩

/-- C7: constructing a `Writer` whose output is a `Resumer` of a concrete
strategy outside `__supported_resumers__` (which contains exactly
`LastCellResumer`) fails with the `TypeError` naming the writer class and the
resumer class — nothing having been written, since construction returns no
writer — while a `LastCellResumer` is accepted. -/
theorem C7_supported_resumers_check (fns : Row) (strip? : Option Bool)
    (ds : Bool) (r : Resumer) :
    (r.kind ≠ ResumerKind.lastCell →
      Writer_init (.resumer r) fns strip? ds =
        .error (.unsupportedResumer "Writer".data r.kind.className)) ∧
    (r.kind = ResumerKind.lastCell →
      ∃ s, Writer_init (.resumer r) fns strip? ds = .ok s) := by
  constructor
  · intro hk
    simp [Writer_init, supported_resumers, hk]
  · intro hk
    cases hc : r.canResume <;>
      simp [Writer_init, supported_resumers, hk, hc]

/-- Witness for C7 at concrete inputs: a `BasicResumer` is rejected with the
`TypeError` naming both classes, a `LastCellResumer` is accepted. -/
theorem C7_supported_resumers_check_witness :
    ((Resumer.mk ResumerKind.basic false).kind ≠ ResumerKind.lastCell ∧
      Writer_init (.resumer (Resumer.mk ResumerKind.basic false)) [] none false =
        .error (.unsupportedResumer "Writer".data "BasicResumer".data)) ∧
    ((Resumer.mk ResumerKind.lastCell false).kind = ResumerKind.lastCell ∧
      ∃ s, Writer_init (.resumer (Resumer.mk ResumerKind.lastCell false)) []
        none false = .ok s) :=
  ⟨⟨by decide,
    ((C7_supported_resumers_check [] none false
        (Resumer.mk ResumerKind.basic false)).1 (by decide)).trans rfl⟩,
   ⟨rfl,
    (C7_supported_resumers_check [] none false
        (Resumer.mk ResumerKind.lastCell false)).2 rfl⟩⟩

/-- C4: on Python 3.10 the wrapped `writerow` turns a `csv.Error` whose
message lowercases to `"need to escape, but no escapechar set"` into
`Py310NullByteWriteError`, re-raises every other `csv.Error` unchanged, and on
any other Python version the underlying `writerow` is returned unwrapped (its
`csv.Error` surfaces as such), so no `Py310NullByteWriteError` is ever raised
there. -/
theorem C4_py310_wrapper (wr : Row → Except CsvError Unit) (row : Row) :
    (∀ m, wr row = .error (.mk m) → str_lower m = needToEscapeMsg →
      py310_wrap_csv_writerow true wr row =
        .error (.py310NullByteWrite py310ErrorMsg)) ∧
    (∀ m, wr row = .error (.mk m) → str_lower m ≠ needToEscapeMsg →
      py310_wrap_csv_writerow true wr row = .error (.csv (.mk m))) ∧
    py310_wrap_csv_writerow false wr row = (wr row).mapError WriteError.csv ∧
    ∀ msg, py310_wrap_csv_writerow false wr row ≠
      .error (.py310NullByteWrite msg) := by
  refine ⟨?_, ?_, rfl, ?_⟩
  · intro m hm hlow
    simp [py310_wrap_csv_writerow, hm, CsvError.msg, hlow]
  · intro m hm hlow
    simp [py310_wrap_csv_writerow, hm, CsvError.msg, hlow]
  · intro msg
    show (wr row).mapError WriteError.csv ≠ _
    cases h : wr row <;> simp [Except.mapError, h]

/-- Witness for C4 at concrete inputs: a mixed-case escape message is
converted on 3.10, a different message is re-raised as the same `csv.Error`,
and off 3.10 the same failing call surfaces the `csv.Error` itself. -/
theorem C4_py310_wrapper_witness :
    ((fun (_ : Row) =>
        (Except.error (CsvError.mk "Need to escape, but NO escapechar set".data) :
          Except CsvError Unit)) [] =
      .error (.mk "Need to escape, but NO escapechar set".data) ∧
     str_lower "Need to escape, but NO escapechar set".data = needToEscapeMsg ∧
     py310_wrap_csv_writerow true
        (fun (_ : Row) =>
          (Except.error (CsvError.mk "Need to escape, but NO escapechar set".data) :
            Except CsvError Unit)) [] =
       .error (.py310NullByteWrite py310ErrorMsg)) ∧
    ((fun (_ : Row) =>
        (Except.error (CsvError.mk "other".data) : Except CsvError Unit)) [] =
      .error (.mk "other".data) ∧
     str_lower "other".data ≠ needToEscapeMsg ∧
     py310_wrap_csv_writerow true
        (fun (_ : Row) =>
          (Except.error (CsvError.mk "other".data) : Except CsvError Unit)) [] =
       .error (.csv (.mk "other".data))) ∧
    ∀ msg, py310_wrap_csv_writerow false
        (fun (_ : Row) =>
          (Except.error (CsvError.mk "other".data) : Except CsvError Unit)) [] ≠
      .error (.py310NullByteWrite msg) :=
  ⟨⟨rfl, by decide,
    (C4_py310_wrapper
        (fun (_ : Row) =>
          (Except.error (CsvError.mk "Need to escape, but NO escapechar set".data) :
            Except CsvError Unit)) []).1 _ rfl (by decide)⟩,
   ⟨rfl, by decide,
    (C4_py310_wrapper
        (fun (_ : Row) =>
          (Except.error (CsvError.mk "other".data) : Except CsvError Unit)) []).2.1
      _ rfl (by decide)⟩,
   (C4_py310_wrapper
      (fun (_ : Row) =>
        (Except.error (CsvError.mk "other".data) : Except CsvError Unit)) []).2.2.2⟩

/-- C1: evaluation of the source `Writer.writerow` at the failing input of
the repository test `test_strict`: a writer built over the two fieldnames
`test1`, `test2` accepts and physically writes the one-cell row `["one"]`
without any error — the row-length check the claim (and the test-suite)
require is absent from `writer.py`. -/
theorem C1_writerow_no_length_check :
    (Writer_init .stream ["test1".data, "test2".data] none false).map
      (fun w => (Writer_writerow w ["one".data]).emitted) =
    .ok [["test1".data, "test2".data], ["one".data]] := rfl

/-- C5: evaluation of the source `Writer.writerow`, whose signature is
`def writerow(self, row)` — a single row parameter.  The one argument is
passed through as one physical row; there is no variadic concatenation of
several cell sequences (a call with three sequences is a Python arity
`TypeError`). -/
theorem C5_writerow_single_argument :
    (Writer_init .stream ["n".data] none false).map
      (fun w =>
        (Writer_writerow w ["34".data, "67".data, "89".data, "64".data]).emitted) =
    .ok [["n".data], ["34".data, "67".data, "89".data, "64".data]] := rfl

/-- C6: the coercion helper `coerce_row` of `namedrecord.py` does render a
record-like object to its serialized cell sequence, but `Writer.writerow`
never invokes it: the row argument is forwarded to the underlying csv writer
unchanged (up to null-byte stripping), as the second conjunct evaluates. -/
theorem C6_writerow_no_record_coercion :
    coerce_row (RowLike.record ["Title".data, "a|b".data]) =
      ["Title".data, "a|b".data] ∧
    (Writer_init .stream ["title".data, "tags".data] none false).map
      (fun w => (Writer_writerow w ["Title".data, "raw".data]).emitted) =
    .ok [["title".data, "tags".data], ["Title".data, "raw".data]] :=
  ⟨rfl, rfl⟩

/-! ### Lemmas about Python tuple indexing and the field mapping -/

theorem tuple_getitem_nonneg {α : Type} (vals : List α) (i : Nat)
    (h : i < vals.length) :
    tuple_getitem vals (i : Int) = .ok (vals.get ⟨i, h⟩) := by
  unfold tuple_getitem
  rw [if_pos ⟨by exact_mod_cast Nat.zero_le i, by exact_mod_cast h⟩]
  rw [Int.toNat_natCast, List.get?_eq_get h]

theorem tuple_getitem_neg {α : Type} (vals : List α) (i : Int)
    (h1 : -(vals.length : Int) ≤ i) (h2 : i < 0) :
    ∃ v, vals.get? ((vals.length : Int) + i).toNat = some v ∧
      tuple_getitem vals i = .ok v := by
  have hlt : ((vals.length : Int) + i).toNat < vals.length := by omega
  refine ⟨vals.get ⟨((vals.length : Int) + i).toNat, hlt⟩,
    List.get?_eq_get hlt, ?_⟩
  unfold tuple_getitem
  rw [if_neg (by omega), if_pos ⟨h1, h2⟩, List.get?_eq_get hlt]

theorem tuple_getitem_out_of_range {α : Type} (vals : List α) (i : Int)
    (h : i < -(vals.length : Int) ∨ (vals.length : Int) ≤ i) :
    tuple_getitem vals i = .error .indexError := by
  unfold tuple_getitem
  rw [if_neg (by omega), if_neg (by omega)]

theorem Record_mapping_get_eq_none_of_not_mem (fields : List (List Char))
    (s : List Char) (h : s ∉ fields) : Record_mapping_get fields s = none := by
  unfold Record_mapping_get
  rw [List.findIdx?_eq_none_iff]
  intro a ha
  simp only [decide_eq_false_iff_not]
  intro hc
  exact h (hc ▸ ha)

theorem Record_mapping_get_lt_length (fields : List (List Char))
    (s : List Char) (i : Nat) (h : Record_mapping_get fields s = some i) :
    i < fields.length := by
  unfold Record_mapping_get at h
  exact (List.findIdx?_eq_some_iff_findIdx_eq.1 h).1

/-- C10: on every record type built by `namedrecord`, `Record.get` is total:
a declared field name or an in-range integer index (nonnegative or negative
in Python fashion) yields the corresponding field value, an unknown name or
out-of-range index yields the supplied default, no exception escaping; while
`Record.__getitem__` with an unknown string key raises `KeyError` and with an
out-of-range index raises `IndexError` (the two exceptions `get` catches). -/
theorem C10_record_get_total {α : Type} (fields : List (List Char))
    (vals : List α) (default : α) :
    (∀ s, s ∉ fields →
      Record_getitem fields vals (.name s) = .error .keyError ∧
      Record_get fields vals (.name s) default = default) ∧
    (∀ s i, Record_mapping_get fields s = some i → vals.length = fields.length →
      ∃ v, vals.get? i = some v ∧
        Record_getitem fields vals (.name s) = .ok v ∧
        Record_get fields vals (.name s) default = v) ∧
    (∀ i : Nat, i < vals.length →
      ∃ v, vals.get? i = some v ∧
        Record_get fields vals (.index (i : Int)) default = v) ∧
    (∀ i : Int, -(vals.length : Int) ≤ i → i < 0 →
      ∃ v, vals.get? ((vals.length : Int) + i).toNat = some v ∧
        Record_get fields vals (.index i) default = v) ∧
    (∀ i : Int, (i < -(vals.length : Int) ∨ (vals.length : Int) ≤ i) →
      Record_getitem fields vals (.index i) = .error .indexError ∧
      Record_get fields vals (.index i) default = default) := by
  refine ⟨?_, ?_, ?_, ?_, ?_⟩
  · intro s hs
    have hm := Record_mapping_get_eq_none_of_not_mem fields s hs
    constructor
    · simp only [Record_getitem, hm]
    · simp only [Record_get, Record_getitem, hm]
  · intro s i hm hlen
    have hi : i < vals.length := hlen ▸ Record_mapping_get_lt_length fields s i hm
    refine ⟨vals.get ⟨i, hi⟩, List.get?_eq_get hi, ?_, ?_⟩
    · simp only [Record_getitem, hm, tuple_getitem_nonneg vals i hi]
    · simp only [Record_get, Record_getitem, hm, tuple_getitem_nonneg vals i hi]
  · intro i hi
    refine ⟨vals.get ⟨i, hi⟩, List.get?_eq_get hi, ?_⟩
    simp only [Record_get, Record_getitem, tuple_getitem_nonneg vals i hi]
  · intro i h1 h2
    obtain ⟨v, hv, hg⟩ := tuple_getitem_neg vals i h1 h2
    refine ⟨v, hv, ?_⟩
    simp only [Record_get, Record_getitem, hg]
  · intro i h
    have hg := tuple_getitem_out_of_range vals i h
    constructor
    · simp only [Record_getitem, hg]
    · simp only [Record_get, Record_getitem, hg]

/-- Witness for C10 on the record with fields `name`, `surname` and values
`John`, `Cage`: an unknown name yields the default and `KeyError`, the
declared name `surname` yields `Cage`, index 1 yields `Cage`, index -2 yields
`John`, and index 2 is out of range, yielding the default. -/
theorem C10_record_get_total_witness :
    ("age".data ∉ [ "name".data, "surname".data ] ∧
      Record_getitem ["name".data, "surname".data] ["John".data, "Cage".data]
        (.name "age".data) = .error .keyError ∧
      Record_get ["name".data, "surname".data] ["John".data, "Cage".data]
        (.name "age".data) "absent".data = "absent".data) ∧
    (Record_mapping_get ["name".data, "surname".data] "surname".data = some 1 ∧
      (["John".data, "Cage".data] : List Cell).length =
        (["name".data, "surname".data] : List (List Char)).length ∧
      ∃ v, (["John".data, "Cage".data] : List Cell).get? 1 = some v ∧
        Record_getitem ["name".data, "surname".data] ["John".data, "Cage".data]
          (.name "surname".data) = .ok v ∧
        Record_get ["name".data, "surname".data] ["John".data, "Cage".data]
          (.name "surname".data) "absent".data = v) ∧
    ((1 : Nat) < (["John".data, "Cage".data] : List Cell).length ∧
      ∃ v, (["John".data, "Cage".data] : List Cell).get? 1 = some v ∧
        Record_get ["name".data, "surname".data] ["John".data, "Cage".data]
          (.index ((1 : Nat) : Int)) "absent".data = v) ∧
    (-(((["John".data, "Cage".data] : List Cell).length : Int)) ≤ -2 ∧
      (-2 : Int) < 0 ∧
      ∃ v, (["John".data, "Cage".data] : List Cell).get?
          (((["John".data, "Cage".data] : List Cell).length : Int) + -2).toNat =
        some v ∧
        Record_get ["name".data, "surname".data] ["John".data, "Cage".data]
          (.index (-2)) "absent".data = v) ∧
    (((2 : Int) < -(((["John".data, "Cage".data] : List Cell).length : Int)) ∨
        ((["John".data, "Cage".data] : List Cell).length : Int) ≤ 2) ∧
      Record_getitem ["name".data, "surname".data] ["John".data, "Cage".data]
        (.index 2) = .error .indexError ∧
      Record_get ["name".data, "surname".data] ["John".data, "Cage".data]
        (.index 2) "absent".data = "absent".data) :=
  ⟨⟨by decide,
    (C10_record_get_total ["name".data, "surname".data]
        ["John".data, "Cage".data] "absent".data).1 "age".data (by decide)⟩,
   ⟨rfl, rfl,
    (C10_record_get_total ["name".data, "surname".data]
        ["John".data, "Cage".data] "absent".data).2.1 "surname".data 1 rfl rfl⟩,
   ⟨by decide,
    (C10_record_get_total ["name".data, "surname".data]
        ["John".data, "Cage".data] "absent".data).2.2.1 1 (by decide)⟩,
   ⟨by decide, by decide,
    (C10_record_get_total ["name".data, "surname".data]
        ["John".data, "Cage".data] "absent".data).2.2.2.1 (-2) (by decide)
      (by decide)⟩,
   ⟨by decide,
    (C10_record_get_total ["name".data, "surname".data]
        ["John".data, "Cage".data] "absent".data).2.2.2.2 2 (by decide)⟩⟩

end Casanova
